import Mathlib

/-
  Verification development for the BioAttend attendance system.

  The Python sources are shallowly embedded:
  * `biometric_utils.py` — template derivation (`hashlib.sha256` hexdigest of the
    raw image bytes, implemented below per FIPS 180-4), template matching and the
    verification scan.
  * `database.py` — the SQLite-backed registry and attendance ledger, embedded as
    pure state-passing functions over a `DB` value.  SQLite semantics that matter
    are modelled explicitly: the `UNIQUE` constraint on `students.roll_no`, the
    `UNIQUE(student_id, date)` constraint on `attendance`, and the fact that the
    declared `FOREIGN KEY` is *not* enforced (the sqlite3 connections never issue
    `PRAGMA foreign_keys = ON`, and SQLite leaves foreign keys off by default).
  * `app.py` — the enrollment and edit flows (the parts with registry logic).
-/

namespace BioAttend

/-! ## SHA-256 (FIPS 180-4), standing in for Python's `hashlib.sha256(...).hexdigest()` -/

/-- Truncate to a 32-bit word. -/
def w32 (x : Nat) : Nat := x % 4294967296

/-- Rotate a 32-bit word right by `n` bits. -/
def rotr (n x : Nat) : Nat := w32 ((x >>> n) ||| (x <<< (32 - n)))

/-- SHA-256 `Ch` function. -/
def ch (x y z : Nat) : Nat := (x &&& y) ^^^ ((x ^^^ 4294967295) &&& z)

/-- SHA-256 `Maj` function. -/
def maj (x y z : Nat) : Nat := (x &&& y) ^^^ (x &&& z) ^^^ (y &&& z)

/-- SHA-256 Σ0. -/
def bigSigma0 (x : Nat) : Nat := rotr 2 x ^^^ rotr 13 x ^^^ rotr 22 x

/-- SHA-256 Σ1. -/
def bigSigma1 (x : Nat) : Nat := rotr 6 x ^^^ rotr 11 x ^^^ rotr 25 x

/-- SHA-256 σ0. -/
def smallSigma0 (x : Nat) : Nat := rotr 7 x ^^^ rotr 18 x ^^^ (x >>> 3)

/-- SHA-256 σ1. -/
def smallSigma1 (x : Nat) : Nat := rotr 17 x ^^^ rotr 19 x ^^^ (x >>> 10)

/-- The 64 SHA-256 round constants (decimal). -/
def shaK : List Nat :=
  [1116352408, 1899447441, 3049323471, 3921009573,
   961987163, 1508970993, 2453635748, 2870763221,
   3624381080, 310598401, 607225278, 1426881987,
   1925078388, 2162078206, 2614888103, 3248222580,
   3835390401, 4022224774, 264347078, 604807628,
   770255983, 1249150122, 1555081692, 1996064986,
   2554220882, 2821834349, 2952996808, 3210313671,
   3336571891, 3584528711, 113926993, 338241895,
   666307205, 773529912, 1294757372, 1396182291,
   1695183700, 1986661051, 2177026350, 2456956037,
   2730485921, 2820302411, 3259730800, 3345764771,
   3516065817, 3600352804, 4094571909, 275423344,
   430227734, 506948616, 659060556, 883997877,
   958139571, 1322822218, 1537002063, 1747873779,
   1955562222, 2024104815, 2227730452, 2361852424,
   2428436474, 2756734187, 3204031479, 3329325298]

/-- SHA-256 working state (eight 32-bit words). -/
structure Hash8 where
  a : Nat
  b : Nat
  c : Nat
  d : Nat
  e : Nat
  f : Nat
  g : Nat
  hh : Nat
deriving Repr, DecidableEq

/-- SHA-256 initial hash value (decimal). -/
def shaInit : Hash8 :=
  ⟨1779033703, 3144134277, 1013904242, 2773480762,
   1359893119, 2600822924, 528734635, 1541459225⟩

/-- One SHA-256 compression round. -/
def shaRound (s : Hash8) (wi ki : Nat) : Hash8 :=
  let t1 := w32 (s.hh + bigSigma1 s.e + ch s.e s.f s.g + ki + wi)
  let t2 := w32 (bigSigma0 s.a + maj s.a s.b s.c)
  ⟨w32 (t1 + t2), s.a, s.b, s.c, w32 (s.d + t1), s.e, s.f, s.g⟩

/-- Big-endian 32-bit word from four bytes. -/
def bytesToWord (bs : List Nat) : Nat := bs.foldl (fun acc x => acc * 256 + x) 0

/-- Extend the 16 message words to the 64-entry message schedule. -/
def msgSchedule (ws : List Nat) : List Nat :=
  (List.range 48).foldl
    (fun acc _ =>
      let n := acc.length
      acc ++ [w32 (smallSigma1 (acc.getD (n - 2) 0) + acc.getD (n - 7) 0 +
                   smallSigma0 (acc.getD (n - 15) 0) + acc.getD (n - 16) 0)])
    ws

/-- Compress one 64-byte block into the running hash. -/
def compressBlock (h0 : Hash8) (block : List Nat) : Hash8 :=
  let ws := (List.range 16).map (fun j => bytesToWord ((block.drop (4 * j)).take 4))
  let sched := msgSchedule ws
  let s := (sched.zip shaK).foldl (fun s p => shaRound s p.1 p.2) h0
  ⟨w32 (h0.a + s.a), w32 (h0.b + s.b), w32 (h0.c + s.c), w32 (h0.d + s.d),
   w32 (h0.e + s.e), w32 (h0.f + s.f), w32 (h0.g + s.g), w32 (h0.hh + s.hh)⟩

/-- SHA-256 padding: append `0x80`, zero bytes, then the bit length as 64-bit big-endian. -/
def padMessage (msg : List Nat) : List Nat :=
  let len := msg.length
  let bitLen := 8 * len
  let padZeros := (119 - len % 64) % 64
  msg ++ [0x80] ++ List.replicate padZeros 0 ++
    (List.range 8).map (fun i => (bitLen >>> (56 - 8 * i)) % 256)

/-- Lower-case hex digit. -/
def hexDigit (n : Nat) : Char := if n < 10 then Char.ofNat (48 + n) else Char.ofNat (87 + n)

/-- A 32-bit word as eight lower-case hex digits. -/
def toHex8 (x : Nat) : String :=
  String.mk ((List.range 8).map (fun i => hexDigit ((x >>> (28 - 4 * i)) % 16)))

/-- SHA-256 hexdigest of a byte sequence (each byte a `Nat` below 256). -/
def sha256hex (msg : List Nat) : String :=
  let padded := padMessage msg
  let blocks := (List.range (padded.length / 64)).map (fun i => ((padded.drop (64 * i)).take 64))
  let fin := blocks.foldl compressBlock shaInit
  toHex8 fin.a ++ toHex8 fin.b ++ toHex8 fin.c ++ toHex8 fin.d ++
  toHex8 fin.e ++ toHex8 fin.f ++ toHex8 fin.g ++ toHex8 fin.hh

/-! ## `biometric_utils.py` -/

/-- `generate_iris_template`: hash of the raw image bytes, simulating feature
extraction.  The template is the SHA-256 hexdigest of the byte stream. -/
def generate_iris_template (image_data : List Nat) : String :=
  sha256hex image_data

/-- `match_iris_templates`: exact hash comparison; the `threshold` argument
(default `0.95` at call sites) is not used in exact hash matching. -/
def match_iris_templates (template1 template2 : String) (threshold : Rat) : Bool :=
  template1 == template2

/-- Outcome of `process_verification_image` after a template has been derived. -/
inductive VerificationResult where
  | failure (error : String)
  | matchFound (matched_template : String)
  | noMatch (uploaded_template : String)
deriving Repr, DecidableEq

/-- The matching loop of `process_verification_image`: scan the stored templates
in order and return the first one that matches the uploaded template; report a
successful no-match outcome when none does. -/
def scanStoredTemplates (uploaded_template : String) : List String → VerificationResult
  | [] => .noMatch uploaded_template
  | t :: rest =>
    if match_iris_templates uploaded_template t (19 / 20) then .matchFound t
    else scanStoredTemplates uploaded_template rest

/-! ## `database.py` — registry and attendance ledger

A row of the `students` table and a row of the `attendance` table; a `DB` value
is the whole store.  `nextId` models SQLite's `AUTOINCREMENT` counter (first id
is 1).  Timestamps carry no logic relevant here and are omitted. -/

structure Student where
  id : Nat
  name : String
  roll_no : String
  iris_template : String
deriving Repr, DecidableEq

structure AttendanceRec where
  student_id : Nat
  date : String
  status : String
deriving Repr, DecidableEq

structure DB where
  nextId : Nat
  students : List Student
  attendance : List AttendanceRec
deriving Repr, DecidableEq

/-- The freshly initialised database: both tables empty. -/
def emptyDB : DB := ⟨1, [], []⟩

/-- `add_student`: `INSERT INTO students`; the `UNIQUE` constraint on `roll_no`
raises `IntegrityError` (returned as `none`) when the roll number exists. -/
def add_student (db : DB) (name roll_no iris_template : String) : Option Nat × DB :=
  if db.students.any (fun s => s.roll_no == roll_no) then
    (none, db)
  else
    (some db.nextId,
     { db with nextId := db.nextId + 1,
               students := db.students ++ [⟨db.nextId, name, roll_no, iris_template⟩] })

/-- `get_student_by_roll_no`: `SELECT * FROM students WHERE roll_no = ?`,
`fetchone` returns the first row in table order. -/
def get_student_by_roll_no (db : DB) (roll_no : String) : Option Student :=
  db.students.find? (fun s => s.roll_no == roll_no)

/-- `get_student_by_iris_template`. -/
def get_student_by_iris_template (db : DB) (iris_template : String) : Option Student :=
  db.students.find? (fun s => s.iris_template == iris_template)

/-- `get_student_by_id`. -/
def get_student_by_id (db : DB) (student_id : Nat) : Option Student :=
  db.students.find? (fun s => s.id == student_id)

/-- `mark_attendance`: `INSERT INTO attendance (student_id, date)`; the
`UNIQUE(student_id, date)` constraint turns a duplicate into `IntegrityError`,
caught and returned as `False`.  No existence check on `student_id` is made, and
the declared foreign key is not enforced by the connection. -/
def mark_attendance (db : DB) (student_id : Nat) (date : String) : Bool × DB :=
  if db.attendance.any (fun r => r.student_id == student_id && r.date == date) then
    (false, db)
  else
    (true, { db with attendance := db.attendance ++ [⟨student_id, date, "Present"⟩] })

/-- Lexicographic strict comparison of character lists, as SQLite's default
BINARY collation orders TEXT values such as the date strings. -/
def charListLt : List Char → List Char → Bool
  | _, [] => false
  | [], _ :: _ => true
  | a :: as, b :: bs =>
    if a.toNat < b.toNat then true
    else if b.toNat < a.toNat then false
    else charListLt as bs

/-- Lexicographic strict comparison of TEXT values. -/
def strLtb (a b : String) : Bool := charListLt a.data b.data

/-- Lexicographic non-strict comparison of TEXT values. -/
def strLeb (a b : String) : Bool := !(strLtb b a)

/-- The comparison used by `ORDER BY date DESC`. -/
def dateDesc (a b : AttendanceRec) : Bool := strLeb b.date a.date

/-- `get_student_attendance_history`: the student's rows, newest date first,
capped by `LIMIT`. -/
def get_student_attendance_history (db : DB) (student_id : Nat) (limit : Nat) :
    List AttendanceRec :=
  (((db.attendance.filter (fun r => r.student_id == student_id)).mergeSort dateDesc).take limit)

/-- `get_student_attendance_history` at its default `limit=30`. -/
def get_student_attendance_history_default (db : DB) (student_id : Nat) : List AttendanceRec :=
  get_student_attendance_history db student_id 30

/-- SQL `MIN` over the `date` column (SQLite compares TEXT bytewise). -/
def sqlMin : List String → Option String
  | [] => none
  | d :: ds => some (ds.foldl (fun m x => if strLtb x m then x else m) d)

/-- SQL `MAX` over the `date` column. -/
def sqlMax : List String → Option String
  | [] => none
  | d :: ds => some (ds.foldl (fun m x => if strLtb m x then x else m) d)

/-- Result shape of `get_student_stats`. -/
structure StudentStats where
  total_attendance : Nat
  first_attendance : Option String
  last_attendance : Option String
deriving Repr, DecidableEq

/-- `get_student_stats`: `COUNT(*)`, `MIN(date)` and `MAX(date)` over the
student's attendance rows (`NULL` becomes `none` when there are no rows). -/
def get_student_stats (db : DB) (student_id : Nat) : StudentStats :=
  let marks := db.attendance.filter (fun r => r.student_id == student_id)
  { total_attendance := marks.length,
    first_attendance := sqlMin (marks.map (fun r => r.date)),
    last_attendance := sqlMax (marks.map (fun r => r.date)) }

/-- `update_student`: looks the student up, substitutes current values for the
`None` arguments, and runs the `UPDATE`; the `UNIQUE(roll_no)` constraint fires
exactly when another row (a different id) holds the new roll number. -/
def update_student (db : DB) (student_id : Nat)
    (name roll_no iris_template : Option String) : (Bool × String) × DB :=
  match get_student_by_id db student_id with
  | none => ((false, "Student not found"), db)
  | some cur =>
    let new_name := name.getD cur.name
    let new_roll_no := roll_no.getD cur.roll_no
    let new_iris_template := iris_template.getD cur.iris_template
    if db.students.any (fun s => s.roll_no == new_roll_no && s.id != student_id) then
      ((false, "Roll number already exists"), db)
    else
      ((true, "Student updated successfully"),
       { db with students := db.students.map (fun s =>
           if s.id == student_id then ⟨s.id, new_name, new_roll_no, new_iris_template⟩ else s) })

/-- `delete_student`: checks existence, then deletes the attendance rows and the
student row in one transaction (committed together). -/
def delete_student (db : DB) (student_id : Nat) : (Bool × String) × DB :=
  match get_student_by_id db student_id with
  | none => ((false, "Student not found"), db)
  | some st =>
    ((true, "Student " ++ st.name ++ " and all attendance records deleted successfully"),
     { db with students := db.students.filter (fun s => s.id != student_id),
               attendance := db.attendance.filter (fun r => r.student_id != student_id) })

/-! ## `app.py` — enrollment and edit flows (registry logic only) -/

/-- Outcome of the enrollment flow. -/
inductive EnrollOutcome where
  | enrolled (student_id : Nat)
  | duplicateExternalId
  | duplicateTemplate
  | enrollmentFailed
deriving Repr, DecidableEq

/-- The `enroll` POST handler after template derivation: reject on an existing
roll number, then on an existing iris template, else insert. -/
def enroll (db : DB) (name roll_no iris_template : String) : EnrollOutcome × DB :=
  match get_student_by_roll_no db roll_no with
  | some _ => (.duplicateExternalId, db)
  | none =>
    match get_student_by_iris_template db iris_template with
    | some _ => (.duplicateTemplate, db)
    | none =>
      match add_student db name roll_no iris_template with
      | (some sid, db') => (.enrolled sid, db')
      | (none, db') => (.enrollmentFailed, db')

/-- Outcome of the edit flow. -/
inductive EditOutcome where
  | updated
  | notFound
  | duplicateTemplate
  | updateFailed (message : String)
deriving Repr, DecidableEq

/-- The `edit_student` POST handler: missing student short-circuits; a new iris
template already registered to a *different* student is rejected before the
update; otherwise `update_student` runs with the (always present) name and roll
number and the optional new template. -/
def edit_student (db : DB) (student_id : Nat) (name roll_no : String)
    (iris_template : Option String) : EditOutcome × DB :=
  match get_student_by_id db student_id with
  | none => (.notFound, db)
  | some _ =>
    let templateConflict :=
      match iris_template with
      | some t =>
        match get_student_by_iris_template db t with
        | some existing => existing.id != student_id
        | none => false
      | none => false
    if templateConflict then (.duplicateTemplate, db)
    else
      match update_student db student_id (some name) (some roll_no) iris_template with
      | ((true, _), db') => (.updated, db')
      | ((false, msg), db') => (.updateFailed msg, db')

/-! ## Concrete stores used to instantiate the theorems -/

/-- One enrolled student, no attendance. -/
def oneStudentDB : DB := ⟨2, [⟨1, "Alice", "R1", "T1"⟩], []⟩

/-- Two enrolled students, no attendance. -/
def twoStudentDB : DB := ⟨3, [⟨1, "Alice", "R1", "T1"⟩, ⟨2, "Bob", "R2", "T2"⟩], []⟩

/-- One student with marks on 2024-01-01, 2024-01-03 and 2024-01-02. -/
def threeMarksDB : DB :=
  ⟨2, [⟨1, "Alice", "R1", "T1"⟩],
   [⟨1, "2024-01-01", "Present"⟩, ⟨1, "2024-01-03", "Present"⟩, ⟨1, "2024-01-02", "Present"⟩]⟩

/-- One student with marks on 2024-01-01 and 2024-01-02. -/
def twoMarksDB : DB :=
  ⟨2, [⟨1, "Alice", "R1", "T1"⟩],
   [⟨1, "2024-01-01", "Present"⟩, ⟨1, "2024-01-02", "Present"⟩]⟩

/-! ## Theorems -/

set_option maxRecDepth 20000 in
/-- The SHA-256 embedding reproduces the NIST test vector for the empty message. -/
theorem sha256hex_empty_vector :
    sha256hex [] = "e3b0c44298fc1c149afbf4c8996fb92427ae41e4649b934ca495991b7852b855" := by
  decide

set_option maxRecDepth 20000 in
/-- The SHA-256 embedding reproduces the NIST test vector for the message "abc". -/
theorem sha256hex_abc_vector :
    sha256hex [97, 98, 99] =
      "ba7816bf8f01cfea414140de5dae2223b00361a396177a9cb410ff61f20015ad" := by
  decide

/-- C10: for every pair of templates and every threshold value,
`match_iris_templates` returns `true` exactly when the two templates are equal
as strings, and the threshold argument has no effect on the result. -/
theorem C10_match_iris_templates_exact (t1 t2 : String) (th th' : Rat) :
    (match_iris_templates t1 t2 th = true ↔ t1 = t2) ∧
    match_iris_templates t1 t2 th = match_iris_templates t1 t2 th' := by
  constructor
  · simp [match_iris_templates]
  · rfl

/-- C8: template derivation is deterministic — a pure function of the raw input
bytes: equal byte sequences yield equal templates. -/
theorem C8_generate_iris_template_deterministic (b1 b2 : List Nat) (h : b1 = b2) :
    generate_iris_template b1 = generate_iris_template b2 := by
  rw [h]

/-- C8 witness: determinism instantiated at a concrete byte sequence. -/
theorem C8_generate_iris_template_deterministic_witness :
    ([0, 1, 2] : List Nat) = [0, 1, 2] ∧
    generate_iris_template [0, 1, 2] = generate_iris_template [0, 1, 2] :=
  ⟨rfl, C8_generate_iris_template_deterministic [0, 1, 2] [0, 1, 2] rfl⟩

/-- The scan returns a no-match outcome when no stored template equals the
uploaded one. -/
theorem scan_no_match (uploaded : String) :
    ∀ stored : List String, (∀ t ∈ stored, t ≠ uploaded) →
      scanStoredTemplates uploaded stored = VerificationResult.noMatch uploaded := by
  intro stored
  induction stored with
  | nil => intro _; rfl
  | cons t rest ih =>
    intro h
    have ht : t ≠ uploaded := h t (by simp)
    have hm : match_iris_templates uploaded t (19 / 20) = false := by
      simp [match_iris_templates]
      exact fun he => ht he.symm
    simp only [scanStoredTemplates, hm, Bool.false_eq_true, if_false]
    exact ih (fun x hx => h x (by simp [hx]))

/-- The scan returns the first stored template equal to the uploaded one. -/
theorem scan_first_match (uploaded : String) :
    ∀ pre post : List String, uploaded ∉ pre →
      scanStoredTemplates uploaded (pre ++ uploaded :: post) =
        VerificationResult.matchFound uploaded := by
  intro pre
  induction pre with
  | nil =>
    intro post _
    simp [scanStoredTemplates, match_iris_templates]
  | cons t rest ih =>
    intro post h
    have ht : uploaded ≠ t := by
      intro he
      exact h (by simp [he])
    have hm : match_iris_templates uploaded t (19 / 20) = false := by
      simp [match_iris_templates]
      exact ht
    simp only [List.cons_append, scanStoredTemplates, hm, Bool.false_eq_true, if_false]
    exact ih post (fun hx => h (by simp [hx]))

/-- C7: verification scans the stored templates linearly and returns the first
match; when no stored template equals the derived one it returns the successful
no-match outcome carrying the uploaded template, never a failure. -/
theorem C7_verification_scan (uploaded : String) (pre post stored : List String) :
    (uploaded ∉ pre →
      scanStoredTemplates uploaded (pre ++ uploaded :: post) =
        VerificationResult.matchFound uploaded) ∧
    ((∀ t ∈ stored, t ≠ uploaded) →
      scanStoredTemplates uploaded stored = VerificationResult.noMatch uploaded) ∧
    (∀ e, scanStoredTemplates uploaded stored ≠ VerificationResult.failure e) := by
  refine ⟨scan_first_match uploaded pre post, scan_no_match uploaded stored, ?_⟩
  intro e
  induction stored with
  | nil => simp [scanStoredTemplates]
  | cons t rest ih =>
    by_cases hm : match_iris_templates uploaded t (19 / 20) = true
    · simp [scanStoredTemplates, hm]
    · simp only [scanStoredTemplates, hm, Bool.false_eq_true, if_false]
      exact ih

/-- C7 witness: the scan on concrete template lists. -/
theorem C7_verification_scan_witness :
    scanStoredTemplates "T2" (["T1"] ++ "T2" :: ["T3"]) = VerificationResult.matchFound "T2" ∧
    scanStoredTemplates "T2" ["TA", "TB"] = VerificationResult.noMatch "T2" ∧
    scanStoredTemplates "T2" ["TA", "TB"] ≠ VerificationResult.failure "boom" :=
  have h := C7_verification_scan "T2" ["T1"] ["T3"] ["TA", "TB"]
  ⟨h.1 (by decide), h.2.1 (by decide), h.2.2 "boom"⟩

/-- C1: marking attendance twice for the same `(subject, day)` returns `True`
(Marked) first and `False` (AlreadyMarked) second — the uniqueness violation is
converted, not propagated — and the ledger then holds exactly one record for
that key. -/
theorem C1_mark_attendance_idempotent (db : DB) (sid : Nat) (day : String)
    (h : ∀ r ∈ db.attendance, ¬(r.student_id = sid ∧ r.date = day)) :
    (mark_attendance db sid day).1 = true ∧
    (mark_attendance (mark_attendance db sid day).2 sid day).1 = false ∧
    ((mark_attendance (mark_attendance db sid day).2 sid day).2.attendance.filter
        (fun r => r.student_id == sid && r.date == day)).length = 1 := by
  have hany : db.attendance.any (fun r => r.student_id == sid && r.date == day) = false := by
    rw [List.any_eq_false]
    intro r hr
    simp only [Bool.and_eq_true, beq_iff_eq]
    exact h r hr
  have hfil : db.attendance.filter (fun r => r.student_id == sid && r.date == day) = [] := by
    rw [List.filter_eq_nil_iff]
    intro r hr
    simp only [Bool.and_eq_true, beq_iff_eq]
    exact h r hr
  have e1 : mark_attendance db sid day =
      (true, { db with attendance := db.attendance ++ [⟨sid, day, "Present"⟩] }) := by
    simp [mark_attendance, hany]
  rw [e1]
  refine ⟨rfl, ?_, ?_⟩
  · simp [mark_attendance, List.any_append]
  · simp [mark_attendance, List.any_append, List.filter_append, hfil]

/-- C1 witness: the double mark on a fresh store. -/
theorem C1_mark_attendance_idempotent_witness :
    (∀ r ∈ emptyDB.attendance, ¬(r.student_id = 1 ∧ r.date = "2024-01-01")) ∧
    ((mark_attendance emptyDB 1 "2024-01-01").1 = true ∧
     (mark_attendance (mark_attendance emptyDB 1 "2024-01-01").2 1 "2024-01-01").1 = false ∧
     ((mark_attendance (mark_attendance emptyDB 1 "2024-01-01").2 1 "2024-01-01").2.attendance.filter
         (fun r => r.student_id == 1 && r.date == "2024-01-01")).length = 1) :=
  ⟨by simp [emptyDB], C1_mark_attendance_idempotent emptyDB 1 "2024-01-01" (by simp [emptyDB])⟩

/-- C2: enrollment is rejected — and the registry left unchanged — whenever the
external id (roll number) or the iris template already belongs to an enrolled
subject; an existing roll number yields the duplicate-external-id rejection, and
an existing template (with a fresh roll number) yields the duplicate-template
rejection. -/
theorem C2_enroll_rejects_duplicates (db : DB) (nm r t : String) :
    ((∃ s ∈ db.students, s.roll_no = r) →
      (enroll db nm r t).1 = EnrollOutcome.duplicateExternalId ∧ (enroll db nm r t).2 = db) ∧
    ((∀ s ∈ db.students, s.roll_no ≠ r) → (∃ s ∈ db.students, s.iris_template = t) →
      (enroll db nm r t).1 = EnrollOutcome.duplicateTemplate ∧ (enroll db nm r t).2 = db) ∧
    ((∃ s ∈ db.students, s.roll_no = r ∨ s.iris_template = t) →
      (enroll db nm r t).2 = db) := by
  have hdup1 : (∃ s ∈ db.students, s.roll_no = r) →
      (enroll db nm r t).1 = EnrollOutcome.duplicateExternalId ∧ (enroll db nm r t).2 = db := by
    intro hex
    have : (db.students.find? (fun s => s.roll_no == r)).isSome := by
      rw [List.find?_isSome]
      obtain ⟨s, hs, he⟩ := hex
      exact ⟨s, hs, by simp [he]⟩
    obtain ⟨s₀, hs₀⟩ := Option.isSome_iff_exists.mp this
    simp [enroll, get_student_by_roll_no, hs₀]
  have hdup2 : (∀ s ∈ db.students, s.roll_no ≠ r) → (∃ s ∈ db.students, s.iris_template = t) →
      (enroll db nm r t).1 = EnrollOutcome.duplicateTemplate ∧ (enroll db nm r t).2 = db := by
    intro hall hex
    have hroll : db.students.find? (fun s => s.roll_no == r) = none := by
      rw [List.find?_eq_none]
      intro s hs
      simp [hall s hs]
    have : (db.students.find? (fun s => s.iris_template == t)).isSome := by
      rw [List.find?_isSome]
      obtain ⟨s, hs, he⟩ := hex
      exact ⟨s, hs, by simp [he]⟩
    obtain ⟨s₀, hs₀⟩ := Option.isSome_iff_exists.mp this
    simp [enroll, get_student_by_roll_no, get_student_by_iris_template, hroll, hs₀]
  refine ⟨hdup1, hdup2, ?_⟩
  intro hex
  by_cases hroll : ∃ s ∈ db.students, s.roll_no = r
  · exact (hdup1 hroll).2
  · push_neg at hroll
    obtain ⟨s, hs, he | he⟩ := hex
    · exact absurd he (hroll s hs)
    · exact (hdup2 hroll ⟨s, hs, he⟩).2

/-- C2 witness: on a store holding Alice (roll `R1`, template `T1`), re-using
the roll number or the template is rejected with the respective outcome. -/
theorem C2_enroll_rejects_duplicates_witness :
    ((enroll oneStudentDB "Bob" "R1" "TX").1 = EnrollOutcome.duplicateExternalId ∧
     (enroll oneStudentDB "Bob" "R1" "TX").2 = oneStudentDB) ∧
    ((enroll oneStudentDB "Bob" "R2" "T1").1 = EnrollOutcome.duplicateTemplate ∧
     (enroll oneStudentDB "Bob" "R2" "T1").2 = oneStudentDB) :=
  ⟨(C2_enroll_rejects_duplicates oneStudentDB "Bob" "R1" "TX").1 (by decide),
   (C2_enroll_rejects_duplicates oneStudentDB "Bob" "R2" "T1").2.1 (by decide) (by decide)⟩

/-- C3 counterexample: no subject with id 999 exists in the fresh store, yet
`mark_attendance` reports Marked (`true`) and inserts a ledger record for id
999 — it does not produce a NotFound outcome (the declared foreign key is not
enforced by the sqlite3 connection). -/
theorem C3_counterexample_mark_nonexistent :
    get_student_by_id emptyDB 999 = none ∧
    (mark_attendance emptyDB 999 "2024-01-01").1 = true ∧
    (mark_attendance emptyDB 999 "2024-01-01").2.attendance =
      [⟨999, "2024-01-01", "Present"⟩] := by
  decide

/-- C3 amended: `update_student` and `delete_student` on a nonexistent subject
id return the NotFound outcome ("Student not found") and leave the store
unchanged; `mark_attendance`, however, performs no existence check — on a
nonexistent id (with no prior mark for that key) it returns Marked (`true`) and
inserts the record. -/
theorem C3_not_found_behaviour (db : DB) (sid : Nat) (day : String)
    (h : get_student_by_id db sid = none) :
    (update_student db sid none none none).1 = (false, "Student not found") ∧
    (update_student db sid none none none).2 = db ∧
    (delete_student db sid).1 = (false, "Student not found") ∧
    (delete_student db sid).2 = db ∧
    ((∀ r ∈ db.attendance, ¬(r.student_id = sid ∧ r.date = day)) →
      (mark_attendance db sid day).1 = true ∧
      (mark_attendance db sid day).2.attendance = db.attendance ++ [⟨sid, day, "Present"⟩]) := by
  refine ⟨by simp [update_student, h], by simp [update_student, h],
          by simp [delete_student, h], by simp [delete_student, h], ?_⟩
  intro hfresh
  have hany : db.attendance.any (fun r => r.student_id == sid && r.date == day) = false := by
    rw [List.any_eq_false]
    intro r hr
    simp only [Bool.and_eq_true, beq_iff_eq]
    exact hfresh r hr
  simp [mark_attendance, hany]

/-- C3 witness: the amended behaviour at id 999 on the fresh store. -/
theorem C3_not_found_behaviour_witness :
    get_student_by_id emptyDB 999 = none ∧
    ((update_student emptyDB 999 none none none).1 = (false, "Student not found") ∧
     (update_student emptyDB 999 none none none).2 = emptyDB ∧
     (delete_student emptyDB 999).1 = (false, "Student not found") ∧
     (delete_student emptyDB 999).2 = emptyDB ∧
     ((∀ r ∈ emptyDB.attendance, ¬(r.student_id = 999 ∧ r.date = "2024-01-02")) →
       (mark_attendance emptyDB 999 "2024-01-02").1 = true ∧
       (mark_attendance emptyDB 999 "2024-01-02").2.attendance =
         emptyDB.attendance ++ [⟨999, "2024-01-02", "Present"⟩])) :=
  ⟨by decide, C3_not_found_behaviour emptyDB 999 "2024-01-02" (by decide)⟩

/-- C4: deleting an enrolled subject removes the subject and all of its
attendance marks in one step: the outcome is success, lookups by id and by roll
number then fail, the history is empty for every limit, and no attendance row
for the id remains. -/
theorem C4_delete_cascades (db : DB) (sid : Nat) (st : Student)
    (hfind : get_student_by_id db sid = some st)
    (hroll : ∀ s ∈ db.students, s.roll_no = st.roll_no → s.id = sid) :
    (delete_student db sid).1.1 = true ∧
    get_student_by_id (delete_student db sid).2 sid = none ∧
    get_student_by_roll_no (delete_student db sid).2 st.roll_no = none ∧
    (∀ limit, get_student_attendance_history (delete_student db sid).2 sid limit = []) ∧
    (delete_student db sid).2.attendance.filter (fun r => r.student_id == sid) = [] := by
  have e1 : delete_student db sid =
      ((true, "Student " ++ st.name ++ " and all attendance records deleted successfully"),
       { db with students := db.students.filter (fun s => s.id != sid),
                 attendance := db.attendance.filter (fun r => r.student_id != sid) }) := by
    simp [delete_student, hfind]
  have hattfil : (db.attendance.filter (fun r => r.student_id != sid)).filter
      (fun r => r.student_id == sid) = [] := by
    rw [List.filter_eq_nil_iff]
    intro r hr
    have := (List.mem_filter.mp hr).2
    simp only [bne_iff_ne, ne_eq] at this
    simp [this]
  rw [e1]
  refine ⟨rfl, ?_, ?_, ?_, ?_⟩
  · rw [get_student_by_id, List.find?_eq_none]
    intro s hs
    have := (List.mem_filter.mp hs).2
    simp only [bne_iff_ne, ne_eq] at this
    simp [this]
  · rw [get_student_by_roll_no, List.find?_eq_none]
    intro s hs
    obtain ⟨hmem, hid⟩ := List.mem_filter.mp hs
    simp only [bne_iff_ne, ne_eq] at hid
    simp only [beq_iff_eq]
    exact fun he => hid (hroll s hmem he)
  · intro limit
    simp [get_student_attendance_history, hattfil]
  · exact hattfil

/-- C4 witness: deleting Alice (two marks) from the concrete store. -/
theorem C4_delete_cascades_witness :
    (delete_student twoMarksDB 1).1.1 = true ∧
    get_student_by_id (delete_student twoMarksDB 1).2 1 = none ∧
    get_student_by_roll_no (delete_student twoMarksDB 1).2 "R1" = none ∧
    get_student_attendance_history (delete_student twoMarksDB 1).2 1 30 = [] ∧
    (delete_student twoMarksDB 1).2.attendance.filter (fun r => r.student_id == 1) = [] :=
  have h := C4_delete_cascades twoMarksDB 1 ⟨1, "Alice", "R1", "T1"⟩ (by decide) (by decide)
  ⟨h.1, h.2.1, h.2.2.1, h.2.2.2.1 30, h.2.2.2.2⟩

/-- Looking up an id after an id-preserving rewrite of the matching rows finds
the image of the previously found row. -/
theorem find_id_map_update (l : List Student) (sid : Nat) (f : Student → Student)
    (hf : ∀ s, (f s).id = s.id) :
    (l.map (fun s => if s.id == sid then f s else s)).find? (fun s => s.id == sid) =
      (l.find? (fun s => s.id == sid)).map f := by
  induction l with
  | nil => rfl
  | cons a l ih =>
    by_cases ha : (a.id == sid) = true
    · have hfa : ((f a).id == sid) = true := by rw [hf]; exact ha
      rw [List.map_cons, if_pos ha, List.find?_cons, List.find?_cons, ha, hfa]
      rfl
    · have ha' : (a.id == sid) = false := by
        cases hb : (a.id == sid)
        · rfl
        · exact absurd hb ha
      rw [List.map_cons, if_neg ha, List.find?_cons, List.find?_cons, ha']
      exact ih

/-- C5: `update_student` is a partial update — omitted (`None`) fields retain
their prior value and the stored row afterwards carries exactly the supplied
values; resubmitting the subject's own roll number or template succeeds (self
collision permitted, also through the app-level edit flow); a roll number or a
template belonging to a different subject is rejected with the respective
duplicate outcome and the store is unchanged; on a nonexistent subject id the
NotFound outcome is returned. -/
theorem C5_update_partial (db : DB) (sid : Nat) (cur : Student)
    (hfind : get_student_by_id db sid = some cur)
    (hroll : ∀ s ∈ db.students, s.roll_no = cur.roll_no → s.id = sid)
    (htmpl : ∀ s ∈ db.students, s.iris_template = cur.iris_template → s.id = sid) :
    (∀ nm rn tp : Option String,
      (∀ s ∈ db.students, s.id ≠ sid → s.roll_no ≠ rn.getD cur.roll_no) →
      (update_student db sid nm rn tp).1 = (true, "Student updated successfully") ∧
      get_student_by_id (update_student db sid nm rn tp).2 sid =
        some ⟨sid, nm.getD cur.name, rn.getD cur.roll_no, tp.getD cur.iris_template⟩) ∧
    (edit_student db sid cur.name cur.roll_no (some cur.iris_template)).1 =
      EditOutcome.updated ∧
    (∀ other ∈ db.students, other.id ≠ sid →
      (update_student db sid none (some other.roll_no) none).1 =
        (false, "Roll number already exists") ∧
      (update_student db sid none (some other.roll_no) none).2 = db) ∧
    (∀ other ∈ db.students, other.id ≠ sid →
      (∀ s ∈ db.students, s.iris_template = other.iris_template → s.id = other.id) →
      (edit_student db sid cur.name cur.roll_no (some other.iris_template)).1 =
        EditOutcome.duplicateTemplate ∧
      (edit_student db sid cur.name cur.roll_no (some other.iris_template)).2 = db) ∧
    (∀ sid' : Nat, get_student_by_id db sid' = none →
      update_student db sid' none none none = ((false, "Student not found"), db) ∧
      edit_student db sid' "x" "y" none = (EditOutcome.notFound, db)) := by
  have hcurid : cur.id = sid := by
    have := List.find?_some hfind
    simpa using this
  have hcurmem : cur ∈ db.students := List.mem_of_find?_eq_some hfind
  have hupd : ∀ nm rn tp : Option String,
      (∀ s ∈ db.students, s.id ≠ sid → s.roll_no ≠ rn.getD cur.roll_no) →
      (update_student db sid nm rn tp).1 = (true, "Student updated successfully") ∧
      get_student_by_id (update_student db sid nm rn tp).2 sid =
        some ⟨sid, nm.getD cur.name, rn.getD cur.roll_no, tp.getD cur.iris_template⟩ := by
    intro nm rn tp hother
    have hany : db.students.any
        (fun s => s.roll_no == rn.getD cur.roll_no && s.id != sid) = false := by
      rw [List.any_eq_false]
      intro s hs
      simp only [Bool.and_eq_true, beq_iff_eq, bne_iff_ne, ne_eq, not_and]
      intro he hne
      exact hother s hs hne he
    constructor
    · simp [update_student, hfind, hany]
    · have e : (update_student db sid nm rn tp).2 =
          { db with students := db.students.map (fun s =>
              if s.id == sid then
                ⟨s.id, nm.getD cur.name, rn.getD cur.roll_no, tp.getD cur.iris_template⟩
              else s) } := by
        simp [update_student, hfind, hany]
      rw [e, get_student_by_id]
      have := find_id_map_update db.students sid
        (fun s => ⟨s.id, nm.getD cur.name, rn.getD cur.roll_no, tp.getD cur.iris_template⟩)
        (fun s => rfl)
      simp only at this
      rw [this]
      rw [get_student_by_id] at hfind
      rw [hfind]
      simp [hcurid]
  refine ⟨hupd, ?_, ?_, ?_, ?_⟩
  · -- self collision through the edit flow
    have hconf : get_student_by_iris_template db cur.iris_template =
        db.students.find? (fun s => s.iris_template == cur.iris_template) := rfl
    have hsome : (db.students.find? (fun s => s.iris_template == cur.iris_template)).isSome := by
      rw [List.find?_isSome]
      exact ⟨cur, hcurmem, by simp⟩
    obtain ⟨ex, hex⟩ := Option.isSome_iff_exists.mp hsome
    have hexid : ex.id = sid := by
      have hp := List.find?_some hex
      have hm := List.mem_of_find?_eq_some hex
      exact htmpl ex hm (by simpa using hp)
    have hu := hupd (some cur.name) (some cur.roll_no) (some cur.iris_template)
      (fun s hs hne he => hne (hroll s hs he))
    simp only [edit_student, hfind, get_student_by_iris_template, hex, hexid]
    simp only [bne_self_eq_false, if_false]
    obtain ⟨hu1, _⟩ := hu
    rcases hu2 : update_student db sid (some cur.name) (some cur.roll_no)
        (some cur.iris_template) with ⟨⟨ok, msg⟩, db'⟩
    rw [hu2] at hu1
    simp at hu1
    simp [hu1.1]
  · -- roll number of a different subject
    intro other hmem hne
    have hany : db.students.any
        (fun s => s.roll_no == other.roll_no && s.id != sid) = true := by
      rw [List.any_eq_true]
      exact ⟨other, hmem, by simp [hne]⟩
    constructor
    · simp [update_student, hfind, hany]
    · simp [update_student, hfind, hany]
  · -- template of a different subject, rejected in the edit flow
    intro other hmem hne huniq
    have hsome : (db.students.find? (fun s => s.iris_template == other.iris_template)).isSome := by
      rw [List.find?_isSome]
      exact ⟨other, hmem, by simp⟩
    obtain ⟨ex, hex⟩ := Option.isSome_iff_exists.mp hsome
    have hexid : ex.id = other.id := by
      have hp := List.find?_some hex
      have hm := List.mem_of_find?_eq_some hex
      exact huniq ex hm (by simpa using hp)
    have hexne : (ex.id != sid) = true := by
      simp [hexid]
      exact hne
    constructor
    · simp [edit_student, hfind, get_student_by_iris_template, hex, hexne]
    · simp [edit_student, hfind, get_student_by_iris_template, hex, hexne]
  · -- nonexistent subject id
    intro sid' hnone
    exact ⟨by simp [update_student, hnone], by simp [edit_student, hnone]⟩

/-- C5 witness: partial update, self collision, duplicate roll number, duplicate
template and NotFound, all on the two-student store. -/
theorem C5_update_partial_witness :
    ((update_student twoStudentDB 1 (some "Ann") none none).1 =
       (true, "Student updated successfully") ∧
     get_student_by_id (update_student twoStudentDB 1 (some "Ann") none none).2 1 =
       some ⟨1, "Ann", "R1", "T1"⟩) ∧
    (edit_student twoStudentDB 1 "Alice" "R1" (some "T1")).1 = EditOutcome.updated ∧
    ((update_student twoStudentDB 1 none (some "R2") none).1 =
       (false, "Roll number already exists") ∧
     (update_student twoStudentDB 1 none (some "R2") none).2 = twoStudentDB) ∧
    ((edit_student twoStudentDB 1 "Alice" "R1" (some "T2")).1 =
       EditOutcome.duplicateTemplate ∧
     (edit_student twoStudentDB 1 "Alice" "R1" (some "T2")).2 = twoStudentDB) ∧
    (update_student twoStudentDB 99 none none none = ((false, "Student not found"), twoStudentDB) ∧
     edit_student twoStudentDB 99 "x" "y" none = (EditOutcome.notFound, twoStudentDB)) :=
  have h := C5_update_partial twoStudentDB 1 ⟨1, "Alice", "R1", "T1"⟩
    (by decide) (by decide) (by decide)
  ⟨h.1 (some "Ann") none none (by decide),
   h.2.1,
   h.2.2.1 ⟨2, "Bob", "R2", "T2"⟩ (by decide) (by decide),
   h.2.2.2.1 ⟨2, "Bob", "R2", "T2"⟩ (by decide) (by decide) (by decide),
   h.2.2.2.2 99 (by decide)⟩

/-- Characters with equal code points are equal. -/
theorem char_toNat_injective : Function.Injective Char.toNat :=
  StrictMono.injective fun _ _ hxy => hxy

/-- Nothing is lexicographically below the empty list. -/
theorem charListLt_nil_right : ∀ l : List Char, charListLt l [] = false
  | [] => rfl
  | _ :: _ => rfl

/-- Lexicographic comparison is irreflexive. -/
theorem charListLt_irrefl : ∀ l : List Char, charListLt l l = false
  | [] => rfl
  | a :: as => by
    unfold charListLt
    simp [charListLt_irrefl as]

/-- Lexicographic comparison is asymmetric. -/
theorem charListLt_asymm : ∀ l₁ l₂ : List Char,
    charListLt l₁ l₂ = true → charListLt l₂ l₁ = false
  | _, [] => fun h => by rw [charListLt_nil_right] at h; cases h
  | [], _ :: _ => fun _ => rfl
  | a :: as, b :: bs => fun h => by
    unfold charListLt at h ⊢
    by_cases hab : a.toNat < b.toNat
    · have hba : ¬ b.toNat < a.toNat := Nat.lt_asymm hab
      simp [hab, hba]
    · by_cases hba : b.toNat < a.toNat
      · simp [hab, hba] at h
      · simp only [hab, hba, if_false] at h ⊢
        exact charListLt_asymm as bs h

/-- Lexicographic comparison is transitive. -/
theorem charListLt_trans : ∀ l₁ l₂ l₃ : List Char,
    charListLt l₁ l₂ = true → charListLt l₂ l₃ = true → charListLt l₁ l₃ = true
  | _, l₂, [] => fun _ h2 => by rw [charListLt_nil_right] at h2; cases h2
  | [], [], c :: cs => fun h1 _ => by cases h1
  | [], b :: bs, c :: cs => fun _ _ => rfl
  | a :: as, [], c :: cs => fun h1 _ => by rw [charListLt_nil_right] at h1; cases h1
  | a :: as, b :: bs, c :: cs => fun h1 h2 => by
    unfold charListLt at h1 h2 ⊢
    by_cases hab : a.toNat < b.toNat
    · by_cases hbc : b.toNat < c.toNat
      · simp [Nat.lt_trans hab hbc]
      · by_cases hcb : c.toNat < b.toNat
        · simp [hbc, hcb] at h2
        · have hv : b.toNat = c.toNat :=
            Nat.le_antisymm (Nat.le_of_not_lt hcb) (Nat.le_of_not_lt hbc)
          simp [hv ▸ hab]
    · by_cases hba : b.toNat < a.toNat
      · simp [hab, hba] at h1
      · have hv : a.toNat = b.toNat :=
          Nat.le_antisymm (Nat.le_of_not_lt hba) (Nat.le_of_not_lt hab)
        simp only [hab, hba, if_false] at h1
        by_cases hbc : b.toNat < c.toNat
        · simp [hv ▸ hbc]
        · by_cases hcb : c.toNat < b.toNat
          · simp [hbc, hcb] at h2
          · simp only [hbc, hcb, if_false] at h2
            have hac : ¬ a.toNat < c.toNat := by rw [hv]; exact hbc
            have hca : ¬ c.toNat < a.toNat := by rw [hv]; exact hcb
            simp only [hac, hca, if_false]
            exact charListLt_trans as bs cs h1 h2

/-- Mutually non-smaller lists are equal. -/
theorem charListLt_connex : ∀ l₁ l₂ : List Char,
    charListLt l₁ l₂ = false → charListLt l₂ l₁ = false → l₁ = l₂
  | [], [] => fun _ _ => rfl
  | [], b :: bs => fun h _ => by simp [charListLt] at h
  | a :: as, [] => fun _ h => by simp [charListLt] at h
  | a :: as, b :: bs => fun h1 h2 => by
    by_cases hab : a.toNat < b.toNat
    · simp [charListLt, hab] at h1
    · by_cases hba : b.toNat < a.toNat
      · simp [charListLt, hba] at h2
      · have hv : a.toNat = b.toNat :=
          Nat.le_antisymm (Nat.le_of_not_lt hba) (Nat.le_of_not_lt hab)
        have hch : a = b := char_toNat_injective hv
        unfold charListLt at h1 h2
        simp only [hab, hba, if_false] at h1 h2
        rw [hch, charListLt_connex as bs h1 h2]

/-- `strLtb` is asymmetric. -/
theorem strLtb_asymm (a b : String) (h : strLtb a b = true) : strLtb b a = false :=
  charListLt_asymm a.data b.data h

/-- `strLeb` is reflexive. -/
theorem strLeb_refl (a : String) : strLeb a a = true := by
  simp [strLeb, strLtb, charListLt_irrefl]

/-- `strLeb` is total. -/
theorem strLeb_total (a b : String) : (strLeb a b || strLeb b a) = true := by
  cases hv : strLtb b a
  · simp [strLeb, hv]
  · simp [strLeb, strLtb_asymm b a hv]

/-- A strictly smaller TEXT value is also non-strictly smaller. -/
theorem strLeb_of_strLtb (a b : String) (h : strLtb a b = true) : strLeb a b = true := by
  simp [strLeb, strLtb_asymm a b h]

/-- `strLeb` is transitive. -/
theorem strLeb_trans (a b c : String) (h1 : strLeb a b = true) (h2 : strLeb b c = true) :
    strLeb a c = true := by
  simp only [strLeb, Bool.not_eq_true'] at h1 h2 ⊢
  have h1' : charListLt b.data a.data = false := h1
  have h2' : charListLt c.data b.data = false := h2
  cases hca : charListLt c.data a.data
  · exact hca
  · exfalso
    cases hbc : charListLt b.data c.data
    · have hcb : c.data = b.data := charListLt_connex c.data b.data h2' hbc
      rw [hcb] at hca
      rw [hca] at h1'
      cases h1'
    · have hba := charListLt_trans b.data c.data a.data hbc hca
      rw [hba] at h1'
      cases h1'

/-- The running minimum is a member of the seed-plus-list. -/
theorem foldl_min_mem (ds : List String) :
    ∀ d : String, ds.foldl (fun m x => if strLtb x m then x else m) d ∈ d :: ds := by
  induction ds with
  | nil => intro d; simp
  | cons a l ih =>
    intro d
    rw [List.foldl_cons]
    by_cases hx : strLtb a d = true
    · rw [if_pos hx]
      rcases List.mem_cons.mp (ih a) with h | h
      · simp [h]
      · simp [h]
    · rw [if_neg hx]
      rcases List.mem_cons.mp (ih d) with h | h
      · simp [h]
      · simp [h]

/-- The running minimum is a lower bound of the seed and the list. -/
theorem foldl_min_le (ds : List String) :
    ∀ d : String,
      strLeb (ds.foldl (fun m x => if strLtb x m then x else m) d) d = true ∧
      ∀ x ∈ ds, strLeb (ds.foldl (fun m x => if strLtb x m then x else m) d) x = true := by
  induction ds with
  | nil => intro d; exact ⟨strLeb_refl d, by simp⟩
  | cons a l ih =>
    intro d
    rw [List.foldl_cons]
    by_cases hx : strLtb a d = true
    · rw [if_pos hx]
      obtain ⟨h1, h2⟩ := ih a
      have had : strLeb a d = true := strLeb_of_strLtb a d hx
      refine ⟨strLeb_trans _ a d h1 had, ?_⟩
      intro x hm
      rcases List.mem_cons.mp hm with he | he
      · exact he ▸ h1
      · exact h2 x he
    · rw [if_neg hx]
      obtain ⟨h1, h2⟩ := ih d
      have hx' : strLtb a d = false := by
        cases hb : strLtb a d
        · rfl
        · exact absurd hb hx
      have hda : strLeb d a = true := by simp [strLeb, hx']
      refine ⟨h1, ?_⟩
      intro x hm
      rcases List.mem_cons.mp hm with he | he
      · exact he ▸ strLeb_trans _ d a h1 hda
      · exact h2 x he

/-- The running maximum is a member of the seed-plus-list. -/
theorem foldl_max_mem (ds : List String) :
    ∀ d : String, ds.foldl (fun m x => if strLtb m x then x else m) d ∈ d :: ds := by
  induction ds with
  | nil => intro d; simp
  | cons a l ih =>
    intro d
    rw [List.foldl_cons]
    by_cases hx : strLtb d a = true
    · rw [if_pos hx]
      rcases List.mem_cons.mp (ih a) with h | h
      · simp [h]
      · simp [h]
    · rw [if_neg hx]
      rcases List.mem_cons.mp (ih d) with h | h
      · simp [h]
      · simp [h]

/-- The running maximum is an upper bound of the seed and the list. -/
theorem foldl_max_ge (ds : List String) :
    ∀ d : String,
      strLeb d (ds.foldl (fun m x => if strLtb m x then x else m) d) = true ∧
      ∀ x ∈ ds, strLeb x (ds.foldl (fun m x => if strLtb m x then x else m) d) = true := by
  induction ds with
  | nil => intro d; exact ⟨strLeb_refl d, by simp⟩
  | cons a l ih =>
    intro d
    rw [List.foldl_cons]
    by_cases hx : strLtb d a = true
    · rw [if_pos hx]
      obtain ⟨h1, h2⟩ := ih a
      have hda : strLeb d a = true := strLeb_of_strLtb d a hx
      refine ⟨strLeb_trans d a _ hda h1, ?_⟩
      intro x hm
      rcases List.mem_cons.mp hm with he | he
      · exact he ▸ h1
      · exact h2 x he
    · rw [if_neg hx]
      obtain ⟨h1, h2⟩ := ih d
      have hx' : strLtb d a = false := by
        cases hb : strLtb d a
        · rfl
        · exact absurd hb hx
      have had : strLeb a d = true := by simp [strLeb, hx']
      refine ⟨h1, ?_⟩
      intro x hm
      rcases List.mem_cons.mp hm with he | he
      · exact he ▸ strLeb_trans a d _ had h1
      · exact h2 x he

/-- `sqlMin` of a nonempty column is an element and a lower bound. -/
theorem sqlMin_spec (l : List String) (h : l ≠ []) :
    ∃ m, sqlMin l = some m ∧ m ∈ l ∧ ∀ x ∈ l, strLeb m x = true := by
  match l, h with
  | d :: ds, _ =>
    refine ⟨ds.foldl (fun m x => if strLtb x m then x else m) d, rfl, foldl_min_mem ds d, ?_⟩
    intro x hx
    obtain ⟨h1, h2⟩ := foldl_min_le ds d
    rcases List.mem_cons.mp hx with he | he
    · exact he ▸ h1
    · exact h2 x he

/-- `sqlMax` of a nonempty column is an element and an upper bound. -/
theorem sqlMax_spec (l : List String) (h : l ≠ []) :
    ∃ m, sqlMax l = some m ∧ m ∈ l ∧ ∀ x ∈ l, strLeb x m = true := by
  match l, h with
  | d :: ds, _ =>
    refine ⟨ds.foldl (fun m x => if strLtb m x then x else m) d, rfl, foldl_max_mem ds d, ?_⟩
    intro x hx
    obtain ⟨h1, h2⟩ := foldl_max_ge ds d
    rcases List.mem_cons.mp hx with he | he
    · exact he ▸ h1
    · exact h2 x he

/-- C6: `get_student_stats` returns the number of the subject's marks together
with the minimum and maximum marked day; with no marks it returns count zero
and empty first/last days (and, being total, never errors). -/
theorem C6_get_student_stats (db : DB) (sid : Nat) :
    (get_student_stats db sid).total_attendance =
      (db.attendance.filter (fun r => r.student_id == sid)).length ∧
    (db.attendance.filter (fun r => r.student_id == sid) = [] →
      get_student_stats db sid = ⟨0, none, none⟩) ∧
    (db.attendance.filter (fun r => r.student_id == sid) ≠ [] →
      ∃ dmin dmax,
        (get_student_stats db sid).first_attendance = some dmin ∧
        (get_student_stats db sid).last_attendance = some dmax ∧
        dmin ∈ (db.attendance.filter (fun r => r.student_id == sid)).map (fun r => r.date) ∧
        dmax ∈ (db.attendance.filter (fun r => r.student_id == sid)).map (fun r => r.date) ∧
        ∀ r ∈ db.attendance.filter (fun r => r.student_id == sid),
          strLeb dmin r.date = true ∧ strLeb r.date dmax = true) := by
  refine ⟨rfl, ?_, ?_⟩
  · intro he
    simp [get_student_stats, he, sqlMin, sqlMax]
  · intro hne
    have hmapne : (db.attendance.filter (fun r => r.student_id == sid)).map
        (fun r => r.date) ≠ [] := by
      simpa using hne
    obtain ⟨dmin, hmin, hminmem, hminle⟩ :=
      sqlMin_spec ((db.attendance.filter (fun r => r.student_id == sid)).map
        (fun r => r.date)) hmapne
    obtain ⟨dmax, hmax, hmaxmem, hmaxge⟩ :=
      sqlMax_spec ((db.attendance.filter (fun r => r.student_id == sid)).map
        (fun r => r.date)) hmapne
    refine ⟨dmin, dmax, hmin, hmax, hminmem, hmaxmem, ?_⟩
    intro r hr
    exact ⟨hminle r.date (List.mem_map.mpr ⟨r, hr, rfl⟩),
           hmaxge r.date (List.mem_map.mpr ⟨r, hr, rfl⟩)⟩

/-- C6 witness: the store with marks on 2024-01-01, 2024-01-03 and 2024-01-02
has three marks, `first_attendance` 2024-01-01 and `last_attendance`
2024-01-03 (the minimum and maximum day). -/
theorem C6_get_student_stats_witness :
    (get_student_stats threeMarksDB 1).total_attendance =
      (threeMarksDB.attendance.filter (fun r => r.student_id == 1)).length ∧
    (∃ dmin dmax,
      (get_student_stats threeMarksDB 1).first_attendance = some dmin ∧
      (get_student_stats threeMarksDB 1).last_attendance = some dmax ∧
      dmin ∈ (threeMarksDB.attendance.filter (fun r => r.student_id == 1)).map
        (fun r => r.date) ∧
      dmax ∈ (threeMarksDB.attendance.filter (fun r => r.student_id == 1)).map
        (fun r => r.date) ∧
      ∀ r ∈ threeMarksDB.attendance.filter (fun r => r.student_id == 1),
        strLeb dmin r.date = true ∧ strLeb r.date dmax = true) ∧
    get_student_stats threeMarksDB 1 = ⟨3, some "2024-01-01", some "2024-01-03"⟩ :=
  ⟨(C6_get_student_stats threeMarksDB 1).1,
   (C6_get_student_stats threeMarksDB 1).2.2 (by decide),
   by decide⟩

/-- C9: `get_student_attendance_history` returns a finite sequence of the
subject's marks ordered newest day first, holds at most `limit` entries, with
the default limit equal to 30; it is a pure function of the store, so repeated
calls with the same arguments agree absent new marks.  When the subject has at
most `limit` marks, every one of them appears. -/
theorem C9_history_ordered_capped (db : DB) (sid limit : Nat) :
    get_student_attendance_history_default db sid =
      get_student_attendance_history db sid 30 ∧
    (get_student_attendance_history db sid limit).length ≤ limit ∧
    (get_student_attendance_history db sid limit).Pairwise
      (fun a b => strLeb b.date a.date = true) ∧
    (∀ r ∈ get_student_attendance_history db sid limit,
      r.student_id = sid ∧ r ∈ db.attendance) ∧
    ((db.attendance.filter (fun r => r.student_id == sid)).length ≤ limit →
      ∀ r ∈ db.attendance, r.student_id = sid →
        r ∈ get_student_attendance_history db sid limit) := by
  have htrans : ∀ a b c : AttendanceRec, dateDesc a b → dateDesc b c → dateDesc a c := by
    intro a b c hab hbc
    exact strLeb_trans c.date b.date a.date hbc hab
  have htotal : ∀ a b : AttendanceRec, (dateDesc a b || dateDesc b a) = true := by
    intro a b
    exact strLeb_total b.date a.date
  refine ⟨rfl, ?_, ?_, ?_, ?_⟩
  · simp only [get_student_attendance_history, List.length_take]
    exact Nat.min_le_left _ _
  · have hs := List.sorted_mergeSort htrans htotal
      (db.attendance.filter (fun r => r.student_id == sid))
    have hs' : ((db.attendance.filter
        (fun r => r.student_id == sid)).mergeSort dateDesc).Pairwise
        (fun a b => strLeb b.date a.date = true) := hs
    exact hs'.sublist (List.take_sublist _ _)
  · intro r hr
    have hr1 : r ∈ (db.attendance.filter (fun r => r.student_id == sid)).mergeSort dateDesc :=
      List.take_subset _ _ hr
    rw [List.mem_mergeSort] at hr1
    obtain ⟨hmem, hsid⟩ := List.mem_filter.mp hr1
    exact ⟨by simpa using hsid, hmem⟩
  · intro hlen r hr hsidr
    rw [get_student_attendance_history]
    have hlen' : ((db.attendance.filter
        (fun r => r.student_id == sid)).mergeSort dateDesc).length ≤ limit := by
      rw [List.length_mergeSort]
      exact hlen
    rw [List.take_of_length_le hlen', List.mem_mergeSort]
    exact List.mem_filter.mpr ⟨hr, by simpa using hsidr⟩

/-- C9 witness: the history of the three-mark store at the default limit. -/
theorem C9_history_ordered_capped_witness :
    get_student_attendance_history_default threeMarksDB 1 =
      get_student_attendance_history threeMarksDB 1 30 ∧
    (get_student_attendance_history threeMarksDB 1 30).length ≤ 30 ∧
    (get_student_attendance_history threeMarksDB 1 30).Pairwise
      (fun a b => strLeb b.date a.date = true) ∧
    (⟨1, "2024-01-03", "Present"⟩ : AttendanceRec) ∈
      get_student_attendance_history threeMarksDB 1 30 :=
  have h := C9_history_ordered_capped threeMarksDB 1 30
  ⟨h.1, h.2.1, h.2.2.1,
   h.2.2.2.2 (by decide) ⟨1, "2024-01-03", "Present"⟩ (by decide) rfl⟩

end BioAttend
